import Mathlib

/-!
Shallow embedding of the Load Pattern Controller of the variable-load
sample app (sample-apps/3-variable-load/app/main.py): the pattern
function calculate_target_workers, the worker-pool reconciliation step of
manage_workers, and the administrative HTTP handlers update_config and
set_pattern.  Python floats are modelled by real numbers; the Python
int(x) conversion is truncation toward zero; Python integer % with a
positive modulus agrees with Int.emod.  A Python ZeroDivisionError
(cycle duration zero) is modelled by Option.none.
-/

namespace VariableLoad

open Real

/-- Python int(x) applied to a float: truncation toward zero. -/
noncomputable def pyTrunc (x : ℝ) : ℤ :=
  if 0 ≤ x then ⌊x⌋ else ⌈x⌉

/-- The mutable module-level configuration globals of main.py:
PATTERN_MODE, BASE_LOAD, MAX_LOAD, CYCLE_DURATION, ENABLED and
manual_workers. -/
structure Config where
  PATTERN_MODE : String
  BASE_LOAD : ℤ
  MAX_LOAD : ℤ
  CYCLE_DURATION : ℤ
  ENABLED : Bool
  manual_workers : ℤ
deriving Repr, DecidableEq

/-- load_factor of the wave branch: (math.sin(position * 2 * math.pi) + 1) / 2. -/
noncomputable def waveFactor (position : ℝ) : ℝ :=
  (Real.sin (position * 2 * Real.pi) + 1) / 2

/-- int(BASE_LOAD + (MAX_LOAD - BASE_LOAD) * load_factor), shared by the
wave and random branches. -/
noncomputable def scaledTarget (base maxL : ℤ) (factor : ℝ) : ℤ :=
  pyTrunc ((base : ℝ) + ((maxL - base : ℤ) : ℝ) * factor)

/-- position = (cycle_time % CYCLE_DURATION) / CYCLE_DURATION of
calculate_target_workers. -/
noncomputable def cyclePosition (cfg : Config) (cycle_time : ℤ) : ℝ :=
  ((cycle_time % cfg.CYCLE_DURATION : ℤ) : ℝ) / ((cfg.CYCLE_DURATION : ℤ) : ℝ)

/-- calculate_target_workers(mode, cycle_time) of main.py.  The ambient
globals are passed as cfg, the random.random() draw of the random branch
as rand, and the global current_load_level before the call as level; the
result pairs the returned target with current_load_level after the call.
none models the ZeroDivisionError raised by cycle_time % CYCLE_DURATION
when CYCLE_DURATION is zero (reached for every non-manual mode). -/
noncomputable def calculate_target_workers (cfg : Config) (mode : String)
    (cycle_time : ℤ) (rand : ℝ) (level : ℤ) : Option (ℤ × ℤ) :=
  if mode = "manual" then
    some (cfg.manual_workers, level)
  else if cfg.CYCLE_DURATION = 0 then
    none
  else
    let position : ℝ := cyclePosition cfg cycle_time
    if mode = "wave" then
      some (scaledTarget cfg.BASE_LOAD cfg.MAX_LOAD (waveFactor position),
            pyTrunc (waveFactor position * 100))
    else if mode = "spike" then
      if position < 0.1 ∨ (0.5 ≤ position ∧ position < 0.6) then
        some (cfg.MAX_LOAD, 100)
      else
        some (cfg.BASE_LOAD + pyTrunc (((cfg.MAX_LOAD - cfg.BASE_LOAD : ℤ) : ℝ) * 0.2), 20)
    else if mode = "random" then
      some (scaledTarget cfg.BASE_LOAD cfg.MAX_LOAD rand, pyTrunc (rand * 100))
    else
      some (cfg.BASE_LOAD, level)

/-- The wave-branch target as a function of the cycle position. -/
noncomputable def waveTarget (base maxL : ℤ) (position : ℝ) : ℤ :=
  scaledTarget base maxL (waveFactor position)

/-- An entry of the global workers list: the worker_id passed to
worker_task, and whether the thread is still alive. -/
structure Worker where
  wid : ℕ
  alive : Bool
deriving Repr, DecidableEq

/-- len([w for w in workers if w.is_alive()]). -/
def aliveCount (pool : List Worker) : ℕ :=
  (pool.filter (fun w => w.alive)).length

/-- The spawn loop of manage_workers:
for i in range(count): start Thread(args=(len(workers) + i,)); workers.append(worker).
len(workers) is re-evaluated after each append, so the i-th new worker
gets identifier (initial length) + 2 * i.  A freshly started thread is
alive. -/
def spawnWorkers (pool : List Worker) (count : ℕ) : List Worker :=
  (List.range count).foldl
    (fun ws i => ws ++ [{ wid := ws.length + i, alive := true }]) pool

/-- The pool-adjustment step of one manage_workers iteration: spawn
target - current new workers when target > current; otherwise (scale
down or equal) only log, leaving the list untouched. -/
def adjust_workers (target : ℤ) (pool : List Worker) : List Worker :=
  if (aliveCount pool : ℤ) < target then
    spawnWorkers pool (target - (aliveCount pool : ℤ)).toNat
  else
    pool

/-- The Prometheus gauges touched by the manage_workers loop. -/
structure Metrics where
  active_workers : ℤ
  load_level : ℤ
  memory_usage_bytes : ℤ
  cpu_usage_estimate : ℝ

/-- One iteration of the manage_workers loop body.  elapsed is
int(time.time() - start_time); rand a random.random() draw; mem the
sampled process.memory_info().rss and cpu the sampled
process.cpu_percent().  Returns the workers list, the global
current_load_level and the gauges after the iteration; none models an
uncaught exception inside calculate_target_workers. -/
noncomputable def manage_tick (cfg : Config) (pool : List Worker) (level : ℤ)
    (m : Metrics) (elapsed : ℤ) (rand : ℝ) (mem : ℤ) (cpu : ℝ) :
    Option (List Worker × ℤ × Metrics) :=
  if cfg.ENABLED then
    match calculate_target_workers cfg cfg.PATTERN_MODE elapsed rand level with
    | none => none
    | some (target, newLevel) =>
      let pool2 := adjust_workers target pool
      some (pool2, newLevel,
        { active_workers := (aliveCount pool2 : ℤ),
          load_level := newLevel,
          memory_usage_bytes := mem,
          cpu_usage_estimate := cpu / 100 })
  else
    some (pool, level,
      { m with memory_usage_bytes := mem, cpu_usage_estimate := cpu / 100 })

/-- A JSON value of a /config request body field, as far as the handler
inspects it. -/
inductive JVal where
  | jint : ℤ → JVal
  | jstr : String → JVal
  | jnull : JVal
deriving Repr, DecidableEq

/-- Python int(v) on a JSON-decoded value: an int passes through, a
string is parsed as a decimal integer, anything else raises (none). -/
def pyToInt : JVal → Option ℤ
  | .jint n => some n
  | .jstr s => s.toInt?
  | .jnull => none

/-- The JSON body of a POST /config request: each recognised key is
present or absent. -/
structure ConfigBody where
  pattern_mode : Option String
  base_load : Option JVal
  max_load : Option JVal
  cycle_duration : Option JVal
  workers : Option JVal
deriving Repr, DecidableEq

/-- One `if key in data: GLOBAL = int(data[key])` step of update_config:
absent key leaves the config untouched; a value int() rejects aborts the
request (false), as the uncaught exception does in Python. -/
def applyIntField (v : Option JVal) (set : ℤ → Config → Config) (c : Config) :
    Config × Bool :=
  match v with
  | none => (c, true)
  | some j =>
    match pyToInt j with
    | some n => (set n c, true)
    | none => (c, false)

/-- update_config of main.py: sequential partial update of PATTERN_MODE,
BASE_LOAD, MAX_LOAD, CYCLE_DURATION and manual_workers.  The Bool is
true on a 200 response; false models the 500 produced by an int()
failure, after which the remaining fields stay untouched (the earlier
assignments persist, as the Python globals do). -/
def update_config (data : ConfigBody) (c : Config) : Config × Bool :=
  let c0 := match data.pattern_mode with
    | some v => { c with PATTERN_MODE := v }
    | none => c
  let (c1, ok1) := applyIntField data.base_load
    (fun n c => { c with BASE_LOAD := n }) c0
  if !ok1 then (c1, false) else
  let (c2, ok2) := applyIntField data.max_load
    (fun n c => { c with MAX_LOAD := n }) c1
  if !ok2 then (c2, false) else
  let (c3, ok3) := applyIntField data.cycle_duration
    (fun n c => { c with CYCLE_DURATION := n }) c2
  if !ok3 then (c3, false) else
  let (c4, ok4) := applyIntField data.workers
    (fun n c => { c with manual_workers := n }) c3
  if !ok4 then (c4, false) else (c4, true)

/-- The response of the /pattern/<name> handler. -/
inductive PatternResponse where
  | ok : String → PatternResponse
  | invalid : List String → PatternResponse
deriving Repr, DecidableEq

/-- valid_patterns of set_pattern. -/
def valid_patterns : List String := ["wave", "spike", "random", "manual"]

/-- set_pattern of main.py: an unknown name yields a 400 whose error body
enumerates valid_patterns and leaves PATTERN_MODE untouched; a valid name
is stored and acknowledged with a 200. -/
def set_pattern (pattern_name : String) (c : Config) :
    Config × ℕ × PatternResponse :=
  if pattern_name ∉ valid_patterns then
    (c, 400, .invalid valid_patterns)
  else
    ({ c with PATTERN_MODE := pattern_name }, 200, .ok pattern_name)

/-- The wave-branch target as claim C1 words it: base plus the ROUNDED
scaled factor.  Stated from the claim, for comparison with the code-side
waveTarget, which truncates. -/
noncomputable def waveTargetClaimed (base maxL : ℤ) (position : ℝ) : ℤ :=
  base + round (((maxL - base : ℤ) : ℝ) * waveFactor position)

/-- The low-plateau spike target as claim C2 words it: base plus the
ROUNDED fifth of the range.  Stated from the claim, for comparison with
the code, which truncates. -/
noncomputable def spikeLowClaimed (base maxL : ℤ) : ℤ :=
  base + round (0.2 * ((maxL - base : ℤ) : ℝ))

/-- Whether an update_config field, if present, survives int():
true when absent or coercible. -/
def fieldCoerces : Option JVal → Bool
  | none => true
  | some j => (pyToInt j).isSome

/-- The value an update_config field holds after the request: the coerced
body value when the key is present, the previous value otherwise. -/
def fieldValD (v : Option JVal) (old : ℤ) : ℤ :=
  match v with
  | none => old
  | some j => (pyToInt j).getD old

/-! ## Helper lemmas -/

theorem pyTrunc_intCast (n : ℤ) : pyTrunc (n : ℝ) = n := by
  unfold pyTrunc
  split <;> simp

theorem le_pyTrunc {n : ℤ} {x : ℝ} (h : (n : ℝ) ≤ x) : n ≤ pyTrunc x := by
  unfold pyTrunc
  split
  · exact Int.le_floor.mpr h
  · exact_mod_cast h.trans (Int.le_ceil x)

theorem pyTrunc_le {n : ℤ} {x : ℝ} (h : x ≤ (n : ℝ)) : pyTrunc x ≤ n := by
  unfold pyTrunc
  split
  · rename_i h0
    exact_mod_cast (Int.floor_le x).trans h
  · exact Int.ceil_le.mpr h

theorem pyTrunc_mono {x y : ℝ} (h : x ≤ y) : pyTrunc x ≤ pyTrunc y := by
  unfold pyTrunc
  split <;> split
  · exact Int.floor_le_floor h
  · rename_i hx hy
    exact absurd (hx.trans h) hy
  · rename_i hx hy
    exact le_trans (Int.ceil_le.mpr (by exact_mod_cast le_of_not_le hx))
      (Int.floor_nonneg.mpr hy)
  · exact Int.ceil_le_ceil h

theorem pyTrunc_of_nonneg {x : ℝ} (h : 0 ≤ x) : pyTrunc x = ⌊x⌋ := by
  unfold pyTrunc
  exact if_pos h

theorem aliveCount_le_length (pool : List Worker) : aliveCount pool ≤ pool.length :=
  List.length_filter_le _ pool

theorem aliveCount_append_single (pool : List Worker) (w : Worker) :
    aliveCount (pool ++ [w]) = aliveCount pool + (if w.alive then 1 else 0) := by
  unfold aliveCount
  rw [List.filter_append, List.length_append]
  by_cases h : w.alive <;> simp [h]

theorem spawnWorkers_zero (pool : List Worker) : spawnWorkers pool 0 = pool := rfl

theorem spawnWorkers_succ (pool : List Worker) (n : ℕ) :
    spawnWorkers pool (n + 1) =
      spawnWorkers pool n ++
        [{ wid := (spawnWorkers pool n).length + n, alive := true }] := by
  unfold spawnWorkers
  rw [List.range_succ, List.foldl_append]
  rfl

theorem spawnWorkers_length (pool : List Worker) (n : ℕ) :
    (spawnWorkers pool n).length = pool.length + n := by
  induction n with
  | zero => rfl
  | succ k ih =>
    rw [spawnWorkers_succ, List.length_append, ih]
    simp
    omega

theorem spawnWorkers_aliveCount (pool : List Worker) (n : ℕ) :
    aliveCount (spawnWorkers pool n) = aliveCount pool + n := by
  induction n with
  | zero => rfl
  | succ k ih =>
    rw [spawnWorkers_succ, aliveCount_append_single, ih]
    simp
    omega

theorem spawnWorkers_take (pool : List Worker) (n : ℕ) :
    (spawnWorkers pool n).take pool.length = pool := by
  induction n with
  | zero => simp [spawnWorkers_zero]
  | succ k ih =>
    rw [spawnWorkers_succ,
      List.take_append_of_le_length (by rw [spawnWorkers_length]; omega), ih]

theorem spawnWorkers_drop_map (pool : List Worker) (n : ℕ) :
    ((spawnWorkers pool n).drop pool.length).map Worker.wid =
      (List.range n).map (fun i => pool.length + 2 * i) := by
  induction n with
  | zero => simp [spawnWorkers_zero]
  | succ k ih =>
    rw [spawnWorkers_succ,
      List.drop_append_of_le_length (by rw [spawnWorkers_length]; omega),
      List.map_append, ih, List.range_succ, List.map_append,
      spawnWorkers_length]
    simp
    omega

theorem pyTrunc_eq_intCast_of_eq {x : ℝ} {n : ℤ} (h : x = (n : ℝ)) :
    pyTrunc x = n := h ▸ pyTrunc_intCast n

theorem calculate_wave_eq (cfg : Config) (t : ℤ) (r : ℝ) (lvl : ℤ)
    (hne : cfg.CYCLE_DURATION ≠ 0) :
    calculate_target_workers cfg "wave" t r lvl =
      some (waveTarget cfg.BASE_LOAD cfg.MAX_LOAD (cyclePosition cfg t),
            pyTrunc (waveFactor (cyclePosition cfg t) * 100)) := by
  simp [calculate_target_workers, waveTarget, hne]

theorem calculate_spike_eq (cfg : Config) (t : ℤ) (r : ℝ) (lvl : ℤ)
    (hne : cfg.CYCLE_DURATION ≠ 0) :
    calculate_target_workers cfg "spike" t r lvl =
      if cyclePosition cfg t < 0.1 ∨
          (0.5 ≤ cyclePosition cfg t ∧ cyclePosition cfg t < 0.6) then
        some (cfg.MAX_LOAD, 100)
      else
        some (cfg.BASE_LOAD +
          pyTrunc (((cfg.MAX_LOAD - cfg.BASE_LOAD : ℤ) : ℝ) * 0.2), 20) := by
  simp [calculate_target_workers, hne]

theorem waveFactor_nonneg (p : ℝ) : 0 ≤ waveFactor p := by
  unfold waveFactor
  nlinarith [Real.neg_one_le_sin (p * 2 * Real.pi)]

theorem waveFactor_le_one (p : ℝ) : waveFactor p ≤ 1 := by
  unfold waveFactor
  nlinarith [Real.sin_le_one (p * 2 * Real.pi)]

theorem sin_mono_seg1 {x y : ℝ} (hx : 0 ≤ x) (hxy : x ≤ y) (hy : y ≤ 1 / 4) :
    Real.sin (x * 2 * Real.pi) ≤ Real.sin (y * 2 * Real.pi) := by
  have hpi := Real.pi_pos
  exact Real.strictMonoOn_sin.monotoneOn
    (Set.mem_Icc.mpr ⟨by nlinarith, by nlinarith⟩)
    (Set.mem_Icc.mpr ⟨by nlinarith, by nlinarith⟩) (by nlinarith)

theorem sin_anti_seg2 {x y : ℝ} (hx : 1 / 4 ≤ x) (hxy : x ≤ y) (hy : y ≤ 3 / 4) :
    Real.sin (y * 2 * Real.pi) ≤ Real.sin (x * 2 * Real.pi) := by
  have hpi := Real.pi_pos
  have hs : ∀ z : ℝ, Real.sin z = Real.cos (z - Real.pi / 2) := by
    intro z
    rw [← Real.cos_neg, neg_sub, Real.cos_pi_div_two_sub]
  rw [hs (x * 2 * Real.pi), hs (y * 2 * Real.pi)]
  exact Real.strictAntiOn_cos.antitoneOn
    (Set.mem_Icc.mpr ⟨by nlinarith, by nlinarith⟩)
    (Set.mem_Icc.mpr ⟨by nlinarith, by nlinarith⟩) (by nlinarith)

theorem sin_mono_seg3 {x y : ℝ} (hx : 3 / 4 ≤ x) (hxy : x ≤ y) (hy : y ≤ 1) :
    Real.sin (x * 2 * Real.pi) ≤ Real.sin (y * 2 * Real.pi) := by
  have hpi := Real.pi_pos
  have hs : ∀ z : ℝ, Real.sin z = Real.sin (z - 2 * Real.pi) := fun z =>
    (Real.sin_sub_two_pi z).symm
  rw [hs (x * 2 * Real.pi), hs (y * 2 * Real.pi)]
  exact Real.strictMonoOn_sin.monotoneOn
    (Set.mem_Icc.mpr ⟨by nlinarith, by nlinarith⟩)
    (Set.mem_Icc.mpr ⟨by nlinarith, by nlinarith⟩) (by nlinarith)

theorem waveTarget_le_of_factor_le {base maxL : ℤ} (hbm : base ≤ maxL) {p q : ℝ}
    (h : waveFactor p ≤ waveFactor q) :
    waveTarget base maxL p ≤ waveTarget base maxL q := by
  unfold waveTarget scaledTarget
  apply pyTrunc_mono
  have hd : (0 : ℝ) ≤ ((maxL - base : ℤ) : ℝ) := by
    push_cast
    have : (base : ℝ) ≤ (maxL : ℝ) := by exact_mod_cast hbm
    linarith
  nlinarith

/-! ## Claim theorems -/

/-- Claim C1 (amended): under the wave pattern, for a positive cycle
duration, the code sets phase = (elapsed mod cycle_duration) /
cycle_duration and factor = (sin(2 pi phase) + 1) / 2, but then TRUNCATES
rather than rounds: load_level = int(factor * 100) and target =
int(base + (max - base) * factor), Python int() being truncation toward
zero (the claim said round; see the counterexample).  The quoted scenario
base=10, max=50, cycle=120, elapsed=30 does yield phase=0.25, factor=1.0,
target=50, load_level=100, where truncation and rounding agree. -/
theorem C1_wave_formula (cfg : Config) (t : ℤ) (r : ℝ) (lvl : ℤ)
    (h : 0 < cfg.CYCLE_DURATION) :
    calculate_target_workers cfg "wave" t r lvl =
      some (pyTrunc ((cfg.BASE_LOAD : ℝ) + ((cfg.MAX_LOAD - cfg.BASE_LOAD : ℤ) : ℝ) *
              ((Real.sin (cyclePosition cfg t * 2 * Real.pi) + 1) / 2)),
            pyTrunc ((Real.sin (cyclePosition cfg t * 2 * Real.pi) + 1) / 2 * 100)) ∧
    calculate_target_workers ⟨"wave", 10, 50, 120, true, 10⟩ "wave" 30 r lvl =
      some (50, 100) := by
  constructor
  · rw [calculate_wave_eq cfg t r lvl h.ne']
    rfl
  · rw [calculate_wave_eq _ _ _ _ (by norm_num)]
    have hpos : cyclePosition ⟨"wave", 10, 50, 120, true, 10⟩ 30 = 1 / 4 := by
      unfold cyclePosition
      rw [show ((30 : ℤ) % (120 : ℤ)) = 30 by decide]
      push_cast
      norm_num
    rw [hpos]
    have hfac : waveFactor (1 / 4) = 1 := by
      unfold waveFactor
      rw [show ((1 : ℝ) / 4) * 2 * Real.pi = Real.pi / 2 by ring, Real.sin_pi_div_two]
      norm_num
    rw [waveTarget, scaledTarget, hfac]
    rw [pyTrunc_eq_intCast_of_eq (n := 50) (by push_cast; ring),
        pyTrunc_eq_intCast_of_eq (n := 100) (by push_cast; ring)]

theorem C1_wave_formula_witness :
    calculate_target_workers ⟨"wave", 10, 50, 120, true, 10⟩ "wave" 30 0 0 =
      some (50, 100) :=
  (C1_wave_formula ⟨"wave", 10, 50, 120, true, 10⟩ 30 0 0 (by norm_num)).2

/-- Claim C1 is FALSE as stated: it demands target = base +
round((max-base) * factor), but the code truncates.  With base=0, max=80,
cycle_duration=6 and elapsed=1 the phase is 1/6, the factor
(sqrt 3 / 2 + 1) / 2, so (max-base) * factor = 20 sqrt 3 + 40 is about
74.64: the code returns target 74 (and load_level 93) while the claimed
formula rounds to 75. -/
theorem C1_wave_counterexample :
    calculate_target_workers ⟨"wave", 0, 80, 6, true, 10⟩ "wave" 1 0 0 =
      some (74, 93) ∧
    waveTargetClaimed 0 80 (cyclePosition ⟨"wave", 0, 80, 6, true, 10⟩ 1) = 75 := by
  have hpos : cyclePosition ⟨"wave", 0, 80, 6, true, 10⟩ 1 = 1 / 6 := by
    unfold cyclePosition
    rw [show ((1 : ℤ) % (6 : ℤ)) = 1 by decide]
    push_cast
    norm_num
  have hfac : waveFactor (1 / 6) = (Real.sqrt 3 + 2) / 4 := by
    unfold waveFactor
    rw [show ((1 : ℝ) / 6) * 2 * Real.pi = Real.pi / 3 by ring, Real.sin_pi_div_three]
    ring
  have h1 : (69 / 40 : ℝ) ≤ Real.sqrt 3 :=
    (Real.le_sqrt' (by norm_num)).mpr (by norm_num)
  have h2 : Real.sqrt 3 < 7 / 4 :=
    (Real.sqrt_lt' (by norm_num)).mpr (by norm_num)
  constructor
  · rw [calculate_wave_eq _ _ _ _ (by norm_num), hpos, waveTarget, scaledTarget, hfac]
    have e1 : pyTrunc (((0 : ℤ) : ℝ) +
        ((80 - 0 : ℤ) : ℝ) * ((Real.sqrt 3 + 2) / 4)) = 74 := by
      rw [pyTrunc_of_nonneg (by push_cast; nlinarith)]
      rw [Int.floor_eq_iff]
      push_cast
      constructor <;> nlinarith
    have e2 : pyTrunc ((Real.sqrt 3 + 2) / 4 * 100) = 93 := by
      rw [pyTrunc_of_nonneg (by nlinarith)]
      rw [Int.floor_eq_iff]
      push_cast
      constructor <;> nlinarith
    rw [e1, e2]
  · unfold waveTargetClaimed
    rw [hpos, hfac, round_eq]
    have e3 : ⌊((80 - 0 : ℤ) : ℝ) * ((Real.sqrt 3 + 2) / 4) + 1 / 2⌋ = 75 := by
      rw [Int.floor_eq_iff]
      push_cast
      constructor <;> nlinarith
    rw [e3]
    norm_num

/-- Claim C2 (amended): under the spike pattern with a positive cycle
duration, the call returns (max, load_level 100) exactly when
phase < 0.1 or 0.5 <= phase < 0.6; for every other phase it returns
target = base + int(0.2 * (max - base)) with load_level 20 — int() being
Python truncation toward zero, where the claim said round (see the
counterexample). -/
theorem C2_spike_plateaus (cfg : Config) (t : ℤ) (r : ℝ) (lvl : ℤ)
    (h : 0 < cfg.CYCLE_DURATION) :
    (calculate_target_workers cfg "spike" t r lvl = some (cfg.MAX_LOAD, 100) ↔
      (cyclePosition cfg t < 0.1 ∨
        (0.5 ≤ cyclePosition cfg t ∧ cyclePosition cfg t < 0.6))) ∧
    (¬(cyclePosition cfg t < 0.1 ∨
        (0.5 ≤ cyclePosition cfg t ∧ cyclePosition cfg t < 0.6)) →
      calculate_target_workers cfg "spike" t r lvl =
        some (cfg.BASE_LOAD +
          pyTrunc (((cfg.MAX_LOAD - cfg.BASE_LOAD : ℤ) : ℝ) * 0.2), 20)) := by
  rw [calculate_spike_eq cfg t r lvl h.ne']
  by_cases hc : cyclePosition cfg t < 0.1 ∨
      (0.5 ≤ cyclePosition cfg t ∧ cyclePosition cfg t < 0.6)
  · simp [hc]
  · simp [hc, Prod.ext_iff]

theorem C2_spike_plateaus_witness :
    calculate_target_workers ⟨"spike", 0, 3, 10, true, 10⟩ "spike" 3 0 0 =
      some (0 + pyTrunc (((3 - 0 : ℤ) : ℝ) * 0.2), 20) := by
  have h := C2_spike_plateaus ⟨"spike", 0, 3, 10, true, 10⟩ 3 0 0 (by norm_num)
  apply h.2
  push_neg
  norm_num [cyclePosition]

/-- Claim C2 is FALSE as stated: it demands the low plateau be
base + round(0.2 * (max - base)), but the code truncates.  With base=0,
max=3 and phase 0.3 (elapsed=3, cycle_duration=10), 0.2 * 3 = 0.6: the
code returns target 0 while the claimed formula rounds to 1. -/
theorem C2_spike_counterexample :
    calculate_target_workers ⟨"spike", 0, 3, 10, true, 10⟩ "spike" 3 0 0 =
      some (0, 20) ∧
    spikeLowClaimed 0 3 = 1 := by
  constructor
  · rw [calculate_spike_eq _ _ _ _ (by norm_num)]
    rw [if_neg (by push_neg; norm_num [cyclePosition])]
    rw [pyTrunc_of_nonneg (by norm_num)]
    norm_num
  · unfold spikeLowClaimed
    rw [round_eq]
    norm_num

/-- Claim C6: under the wave pattern with base <= max, for every phase in
[0,1) the target lies within [base, max]; it is non-decreasing in phase
on [0, 1/4] and on [3/4, 1), and non-increasing on [1/4, 3/4]. -/
theorem C6_wave_shape (base maxL : ℤ) (hbm : base ≤ maxL) (p q : ℝ) :
    (0 ≤ p → p < 1 → base ≤ waveTarget base maxL p ∧ waveTarget base maxL p ≤ maxL) ∧
    (0 ≤ p → p ≤ q → q ≤ 1 / 4 → waveTarget base maxL p ≤ waveTarget base maxL q) ∧
    (1 / 4 ≤ p → p ≤ q → q ≤ 3 / 4 → waveTarget base maxL q ≤ waveTarget base maxL p) ∧
    (3 / 4 ≤ p → p ≤ q → q < 1 → waveTarget base maxL p ≤ waveTarget base maxL q) := by
  refine ⟨fun _ _ => ?_, fun h1 h2 h3 => ?_, fun h1 h2 h3 => ?_, fun h1 h2 h3 => ?_⟩
  · have hf0 := waveFactor_nonneg p
    have hf1 := waveFactor_le_one p
    have hc : (base : ℝ) ≤ (maxL : ℝ) := by exact_mod_cast hbm
    unfold waveTarget scaledTarget
    constructor
    · apply le_pyTrunc
      push_cast
      nlinarith
    · apply pyTrunc_le
      push_cast
      nlinarith
  · refine waveTarget_le_of_factor_le hbm ?_
    unfold waveFactor
    linarith [sin_mono_seg1 h1 h2 h3]
  · refine waveTarget_le_of_factor_le hbm ?_
    unfold waveFactor
    linarith [sin_anti_seg2 h1 h2 h3]
  · refine waveTarget_le_of_factor_le hbm ?_
    unfold waveFactor
    linarith [sin_mono_seg3 h1 h2 (le_of_lt h3)]

theorem C6_wave_shape_witness :
    ((10 : ℤ) ≤ waveTarget 10 50 (1 / 8) ∧ waveTarget 10 50 (1 / 8) ≤ 50) ∧
    waveTarget 10 50 0 ≤ waveTarget 10 50 (1 / 4) ∧
    waveTarget 10 50 (3 / 4) ≤ waveTarget 10 50 (1 / 4) ∧
    waveTarget 10 50 (3 / 4) ≤ waveTarget 10 50 (7 / 8) :=
  ⟨(C6_wave_shape 10 50 (by norm_num) (1/8) (1/8)).1 (by norm_num) (by norm_num),
   (C6_wave_shape 10 50 (by norm_num) 0 (1/4)).2.1
     (by norm_num) (by norm_num) (by norm_num),
   (C6_wave_shape 10 50 (by norm_num) (1/4) (3/4)).2.2.1
     (by norm_num) (by norm_num) (by norm_num),
   (C6_wave_shape 10 50 (by norm_num) (3/4) (7/8)).2.2.2
     (by norm_num) (by norm_num) (by norm_num)⟩

/-- Claim C3: one reconcile step never removes a pool entry (the old pool
is a prefix of the new one, so pool size is non-decreasing), scale-down
leaves every existing worker untouched (the pool is returned unchanged),
and afterwards the alive count is at most the pool size and equals
previous_alive + max 0 (target - previous_alive). -/
theorem C3_reconcile_invariants (target : ℤ) (pool : List Worker) :
    pool.length ≤ (adjust_workers target pool).length ∧
    (adjust_workers target pool).take pool.length = pool ∧
    (target < (aliveCount pool : ℤ) → adjust_workers target pool = pool) ∧
    aliveCount (adjust_workers target pool) ≤ (adjust_workers target pool).length ∧
    (aliveCount (adjust_workers target pool) : ℤ) =
      (aliveCount pool : ℤ) + max 0 (target - (aliveCount pool : ℤ)) := by
  unfold adjust_workers
  by_cases h : (aliveCount pool : ℤ) < target
  · rw [if_pos h]
    refine ⟨?_, spawnWorkers_take _ _, ?_, aliveCount_le_length _, ?_⟩
    · rw [spawnWorkers_length]; omega
    · intro hlt; omega
    · rw [spawnWorkers_aliveCount]
      rw [max_eq_right (by omega : (0 : ℤ) ≤ target - (aliveCount pool : ℤ))]
      push_cast [Int.toNat_of_nonneg
        (by omega : (0 : ℤ) ≤ target - (aliveCount pool : ℤ))]
      ring
  · rw [if_neg h]
    refine ⟨le_refl _, List.take_length pool, fun _ => rfl, aliveCount_le_length _, ?_⟩
    rw [max_eq_left (by omega : target - (aliveCount pool : ℤ) ≤ 0)]
    ring

theorem C3_reconcile_invariants_witness :
    adjust_workers 0 [⟨0, true⟩, ⟨1, false⟩] = [⟨0, true⟩, ⟨1, false⟩] ∧
    (aliveCount (adjust_workers 4 [⟨0, true⟩, ⟨1, false⟩]) : ℤ) =
      (aliveCount [⟨0, true⟩, ⟨1, false⟩] : ℤ) +
        max 0 (4 - (aliveCount [⟨0, true⟩, ⟨1, false⟩] : ℤ)) :=
  ⟨(C3_reconcile_invariants 0 [⟨0, true⟩, ⟨1, false⟩]).2.2.1 (by decide),
   (C3_reconcile_invariants 4 [⟨0, true⟩, ⟨1, false⟩]).2.2.2.2⟩

/-- Claim C4 is FALSE on the code: the spawn loop passes len(workers) + i
as the identifier while appending inside the loop, so a call that starts
three workers on an empty pool hands out 0, 2, 4, and two later
single-worker calls hand out 3 and then 4 again: identifier 4 repeats,
and 3 arrives after 4, so the identifiers are neither distinct nor
monotonically increasing across calls. -/
theorem C4_counterexample :
    ((adjust_workers 3 []).map Worker.wid = [0, 2, 4]) ∧
    ((adjust_workers 5 (adjust_workers 4 (adjust_workers 3 []))).map Worker.wid
      = [0, 2, 4, 3, 4]) ∧
    ¬ ((adjust_workers 5 (adjust_workers 4 (adjust_workers 3 []))).map
        Worker.wid).Nodup := by
  decide

/-- Claim C4 (amended): within a single reconcile call that starts new
workers, the i-th new worker is appended with identifier
(pool size at call start) + 2 * i, so the identifiers handed out by one
call are strictly increasing; across calls they may repeat and decrease. -/
theorem C4_per_call_identifiers (pool : List Worker) (target : ℤ)
    (h : (aliveCount pool : ℤ) < target) :
    ((adjust_workers target pool).drop pool.length).map Worker.wid =
      (List.range (target - (aliveCount pool : ℤ)).toNat).map
        (fun i => pool.length + 2 * i) ∧
    List.Pairwise (fun a b => a < b)
      (((adjust_workers target pool).drop pool.length).map Worker.wid) := by
  unfold adjust_workers
  rw [if_pos h]
  refine ⟨spawnWorkers_drop_map _ _, ?_⟩
  rw [spawnWorkers_drop_map]
  exact (List.pairwise_lt_range _).map _ (fun a b hab => by omega)

theorem C4_per_call_identifiers_witness :
    ((adjust_workers 3 []).drop (List.length ([] : List Worker))).map Worker.wid =
      (List.range ((3 - (aliveCount ([] : List Worker) : ℤ)).toNat)).map
        (fun i => List.length ([] : List Worker) + 2 * i) :=
  (C4_per_call_identifiers [] 3 (by decide)).1

/-- Claim C7: POST /pattern/name with a name outside
wave, spike, random, manual returns a 400 whose error body enumerates the
valid set and leaves the configuration (hence PATTERN_MODE) unchanged; a
valid name is stored in PATTERN_MODE and acknowledged with a 200. -/
theorem C7_set_pattern_validation (name : String) (c : Config) :
    (name ∉ valid_patterns →
      set_pattern name c = (c, 400, PatternResponse.invalid valid_patterns)) ∧
    (name ∈ valid_patterns →
      set_pattern name c =
        ({ c with PATTERN_MODE := name }, 200, PatternResponse.ok name)) := by
  unfold set_pattern
  constructor
  · intro h; rw [if_pos h]
  · intro h; rw [if_neg (not_not_intro h)]

theorem C7_set_pattern_validation_witness :
    set_pattern "constant" ⟨"wave", 10, 50, 120, true, 10⟩ =
      (⟨"wave", 10, 50, 120, true, 10⟩, 400, PatternResponse.invalid valid_patterns) ∧
    set_pattern "spike" ⟨"wave", 10, 50, 120, true, 10⟩ =
      (⟨"spike", 10, 50, 120, true, 10⟩, 200, PatternResponse.ok "spike") :=
  ⟨(C7_set_pattern_validation "constant" _).1 (by decide),
   (C7_set_pattern_validation "spike" _).2 (by decide)⟩

/-- Claim C9: for a pattern mode outside manual, wave, spike, random, the
pattern function falls back to returning BASE_LOAD as the target and
leaves current_load_level unchanged (the position computation preceding
the fallback requires a non-zero cycle duration). -/
theorem C9_unknown_mode_fallback (cfg : Config) (mode : String) (t : ℤ)
    (r : ℝ) (lvl : ℤ) (hm : mode ∉ ["manual", "wave", "spike", "random"])
    (hc : cfg.CYCLE_DURATION ≠ 0) :
    calculate_target_workers cfg mode t r lvl = some (cfg.BASE_LOAD, lvl) := by
  simp only [List.mem_cons, List.not_mem_nil, or_false, not_or] at hm
  obtain ⟨h1, h2, h3, h4⟩ := hm
  simp [calculate_target_workers, h1, h2, h3, h4, hc]

theorem C9_unknown_mode_fallback_witness :
    calculate_target_workers ⟨"wave", 10, 50, 120, true, 10⟩ "constant" 7 0 5 =
      some (10, 5) :=
  C9_unknown_mode_fallback ⟨"wave", 10, 50, 120, true, 10⟩ "constant" 7 0 5
    (by decide) (by decide)

/-- Claim C10: with ENABLED false, a manage_workers iteration leaves the
worker pool, the current_load_level and the active_workers and load_level
gauges untouched and spawns nothing, while the memory-usage and
CPU-estimate gauges are still sampled and updated. -/
theorem C10_disabled_tick (cfg : Config) (pool : List Worker) (level : ℤ)
    (m : Metrics) (elapsed : ℤ) (rand : ℝ) (mem : ℤ) (cpu : ℝ)
    (h : cfg.ENABLED = false) :
    manage_tick cfg pool level m elapsed rand mem cpu =
      some (pool, level,
        { m with memory_usage_bytes := mem, cpu_usage_estimate := cpu / 100 }) := by
  simp [manage_tick, h]

theorem C10_disabled_tick_witness :
    manage_tick ⟨"wave", 10, 50, 120, false, 10⟩ [⟨0, true⟩] 5 ⟨1, 2, 3, 4⟩
        30 0 777 50 =
      some ([⟨0, true⟩], 5, ⟨1, 2, 777, 50 / 100⟩) :=
  C10_disabled_tick ⟨"wave", 10, 50, 120, false, 10⟩ [⟨0, true⟩] 5 ⟨1, 2, 3, 4⟩
    30 0 777 50 rfl

/-- Claim C5: under the manual pattern the pattern function returns the
stored manual_workers value for every elapsed time and leaves
current_load_level unmodified, and after a POST /config whose body is
exactly the key workers mapped to 7, the next call returns 7 regardless
of elapsed time. -/
theorem C5_manual_workers (cfg : Config) (t t2 : ℤ) (r : ℝ) (lvl : ℤ)
    (hp : cfg.PATTERN_MODE = "manual") :
    calculate_target_workers cfg cfg.PATTERN_MODE t r lvl =
      some (cfg.manual_workers, lvl) ∧
    calculate_target_workers
      (update_config ⟨none, none, none, none, some (JVal.jint 7)⟩ cfg).1
      ((update_config ⟨none, none, none, none, some (JVal.jint 7)⟩ cfg).1).PATTERN_MODE
      t2 r lvl = some (7, lvl) := by
  have hupd : (update_config ⟨none, none, none, none, some (JVal.jint 7)⟩ cfg).1 =
      { cfg with manual_workers := 7 } := by
    simp [update_config, applyIntField, pyToInt]
  constructor
  · rw [hp]
    simp [calculate_target_workers]
  · rw [hupd]
    have hp2 : ({ cfg with manual_workers := 7 } : Config).PATTERN_MODE = "manual" := hp
    rw [hp2]
    simp [calculate_target_workers]

theorem C5_manual_workers_witness :
    calculate_target_workers ⟨"manual", 10, 50, 120, true, 3⟩ "manual" 999 0 5 =
      some (3, 5) ∧
    calculate_target_workers
      (update_config ⟨none, none, none, none, some (JVal.jint 7)⟩
        ⟨"manual", 10, 50, 120, true, 3⟩).1
      ((update_config ⟨none, none, none, none, some (JVal.jint 7)⟩
        ⟨"manual", 10, 50, 120, true, 3⟩).1).PATTERN_MODE
      1000 0 5 = some (7, 5) :=
  C5_manual_workers ⟨"manual", 10, 50, 120, true, 3⟩ 999 1000 0 5 rfl

set_option maxHeartbeats 1000000 in
/-- Claim C8: a POST /config request succeeds exactly when every present
numeric field survives int() coercion, and on success every recognised
field present in the body carries its (coerced) body value while every
absent field, and the ENABLED flag, keeps its previous value. -/
theorem C8_config_update (data : ConfigBody) (c : Config) :
    (update_config data c).2 =
      (fieldCoerces data.base_load && fieldCoerces data.max_load &&
       fieldCoerces data.cycle_duration && fieldCoerces data.workers) ∧
    ((update_config data c).2 = true →
      (update_config data c).1 =
        { PATTERN_MODE := data.pattern_mode.getD c.PATTERN_MODE
          BASE_LOAD := fieldValD data.base_load c.BASE_LOAD
          MAX_LOAD := fieldValD data.max_load c.MAX_LOAD
          CYCLE_DURATION := fieldValD data.cycle_duration c.CYCLE_DURATION
          ENABLED := c.ENABLED
          manual_workers := fieldValD data.workers c.manual_workers }) := by
  obtain ⟨pm, bl, ml, cd, wk⟩ := data
  rcases pm with _ | v <;>
  rcases bl with _ | jb <;>
  rcases ml with _ | jm <;>
  rcases cd with _ | jc <;>
  rcases wk with _ | jw <;>
  simp only [update_config, applyIntField, fieldCoerces, fieldValD, Option.getD] <;>
  (repeat' split) <;>
  simp_all only [Option.isSome_some, Option.isSome_none, Option.getD_some,
    Bool.and_true, Bool.true_and, Bool.and_false, Bool.false_and, Bool.not_true,
    Bool.not_false, Bool.false_eq_true, Bool.true_eq_false, if_true, if_false,
    reduceCtorEq, implies_true, forall_const, true_and, and_true,
    Option.some.injEq] <;>
  (try subst_vars) <;>
  (first | rfl | exact fun h => h.elim)

theorem C8_config_update_witness :
    (update_config
        ⟨some "wave", some (JVal.jint 1), none, some (JVal.jint 2),
          some (JVal.jint 9)⟩ ⟨"manual", 10, 50, 120, true, 3⟩).1 =
      ⟨"wave", 1, 50, 2, true, 9⟩ :=
  (C8_config_update
    ⟨some "wave", some (JVal.jint 1), none, some (JVal.jint 2),
      some (JVal.jint 9)⟩ ⟨"manual", 10, 50, 120, true, 3⟩).2 (by decide)

end VariableLoad
